import Mathlib

/-!
Verification of the host-environment utilities of librime-qjs
(`src/src/types/environment.cc`): the timed, output-capturing subprocess
runner `ProcessManager::runWithTimeoutAndCapture`, the two-valued wrapper
`Environment::popen`, the byte-size formatter `Environment::formatMemoryUsage`
and the whole-file reader `Environment::loadFile`.

The OS-facing effects (constructing the subprocess, waiting with a timeout,
killing, draining the stdout/stderr pipes, querying the exit code, opening a
file) are modelled by explicit world structures: each OS call either succeeds
with a value or raises a C++ exception carrying a message, exactly the calls
covered by the `try` block of the source.  The C++ functions are then total
Lean functions over a world, translated branch by branch from the source.
-/

/-- A single OS call: it either returns a value or throws an exception whose
    `what()` message is the given string. -/
abbrev OsCall (α : Type) := Except String α

/-- The behaviour of the operating system during one invocation of
    `ProcessManager::runWithTimeoutAndCapture`:

    * `spawn`  — constructing `subprocess::Popen` (the first statement of the
      `try` block);
    * `waitInTime` — whether `waiter.wait_for(timeout)` returns before the
      timeout expires (`true` = the child finished in time);
    * `kill`   — `proc->kill()`, called only on the timeout path;
    * `readOut` — `read_all(proc->output(), buffer)`: the bytes available on
      the child's stdout pipe, or an exception;
    * `readErr` — `read_all(proc->error(), buffer)`: the bytes on stderr;
    * `retcode` — `proc->retcode()`: the child's exit code. -/
structure OsWorld where
  spawn : OsCall Unit
  waitInTime : Bool
  kill : OsCall Unit
  readOut : OsCall String
  readErr : OsCall String
  retcode : OsCall Int

namespace ProcessManager

/-- Translation of `ProcessManager::ProcessResult`: exit code, captured stdout text,
    captured stderr text, timed-out flag, with the C++ member initialisers
    as defaults. -/
structure ProcessResult where
  exitCode : Int := 0
  output : String := ""
  error : String := ""
  timedOut : Bool := false
deriving Repr, DecidableEq

/-- The fixed capture buffer size, `constexpr int BUFFER_SIZE = 1024 * 1024`. -/
def BUFFER_SIZE : Nat := 1024 * 1024

/-- Draining a pipe into the fixed `BUFFER_SIZE` buffer: at most
    `BUFFER_SIZE` bytes of the stream are captured. -/
def captureBounded (s : String) : String := String.mk (s.data.take BUFFER_SIZE)

/-- Translation of `ProcessManager::runWithTimeoutAndCapture(command, timeoutInMilliseconds)`,
    translated branch by branch.  Each leaf record spells out the field values
    accumulated by the C++ mutation sequence on that control path; a leaf
    reached through `Except.error msg` is the `catch` clause, which overwrites
    `error` with `e.what()` and `exitCode` with `-1` but leaves the fields set
    before the throw (in particular `timedOut`) untouched. -/
def runWithTimeoutAndCapture (w : OsWorld) (command : String)
    (timeoutInMilliseconds : Int) : ProcessResult :=
  match w.spawn with
  | .error msg =>
      { exitCode := -1, output := "", error := msg, timedOut := false }
  | .ok _ =>
    if timeoutInMilliseconds > 0 then
      if w.waitInTime then
        -- wait completed: drain stdout, then stderr, then read the exit code
        match w.readOut with
        | .error msg =>
            { exitCode := -1, output := "", error := msg, timedOut := false }
        | .ok outData =>
          match w.readErr with
          | .error msg =>
              { exitCode := -1, output := captureBounded outData,
                error := msg, timedOut := false }
          | .ok errData =>
            match w.retcode with
            | .error msg =>
                { exitCode := -1, output := captureBounded outData,
                  error := msg, timedOut := false }
            | .ok rc =>
                { exitCode := rc, output := captureBounded outData,
                  error := captureBounded errData, timedOut := false }
      else
        -- timeout: mark timedOut, exitCode := -1, kill, drain stdout only
        match w.kill with
        | .error msg =>
            { exitCode := -1, output := "", error := msg, timedOut := true }
        | .ok _ =>
          match w.readOut with
          | .error msg =>
              { exitCode := -1, output := "", error := msg, timedOut := true }
          | .ok outData =>
              { exitCode := -1, output := captureBounded outData,
                error := "", timedOut := true }
    else
      -- timeoutInMilliseconds == 0 (or negative): fire and forget
      { exitCode := 0, output := "", error := "", timedOut := false }

/-- The first exception raised along the executed path of
    `runWithTimeoutAndCapture`, together with the value the `timedOut` flag
    holds when the `catch` clause runs (`true` exactly when the timeout had
    already fired before the throw).  `none` when no exception occurs. -/
def firstFault (w : OsWorld) (timeoutInMilliseconds : Int) :
    Option (String × Bool) :=
  match w.spawn with
  | .error msg => some (msg, false)
  | .ok _ =>
    if timeoutInMilliseconds > 0 then
      if w.waitInTime then
        match w.readOut with
        | .error msg => some (msg, false)
        | .ok _ =>
          match w.readErr with
          | .error msg => some (msg, false)
          | .ok _ =>
            match w.retcode with
            | .error msg => some (msg, false)
            | .ok _ => none
      else
        match w.kill with
        | .error msg => some (msg, true)
        | .ok _ =>
          match w.readOut with
          | .error msg => some (msg, true)
          | .ok _ => none
    else none

/-- Number of `proc->kill()` invocations along the executed path: the source
    calls `kill` exactly once, on the timeout path (after a successful spawn,
    with a positive timeout, when the wait did not complete in time). -/
def killCount (w : OsWorld) (timeoutInMilliseconds : Int) : Nat :=
  match w.spawn with
  | .error _ => 0
  | .ok _ =>
    if timeoutInMilliseconds > 0 then if w.waitInTime then 0 else 1
    else 0

end ProcessManager

namespace Environment

/-- Number of subprocess spawn attempts along the control flow of
    `Environment::popen`: with an empty command `popen` returns before calling
    the runner, and otherwise the runner constructs `subprocess::Popen`
    exactly once, as the first statement of its `try` block. -/
def popenSpawnAttempts (command : String) : Nat :=
  if command.isEmpty then 0 else 1

/-- Translation of `Environment::popen(command, timeoutInMilliseconds)`: the two-valued
    `(output, error)` wrapper over the runner. -/
def popen (w : OsWorld) (command : String) (timeoutInMilliseconds : Int) :
    String × String :=
  if command.isEmpty then ("", "Command is empty")
  else
    let result := ProcessManager.runWithTimeoutAndCapture w command
      timeoutInMilliseconds
    if result.timedOut then
      ("", "popen timed-out with command = [" ++ command ++ "] in " ++
        toString timeoutInMilliseconds ++ "ms")
    else if !result.error.isEmpty then
      ("", "popen failed with command = [" ++ command ++ "]: exitCode = " ++
        toString result.exitCode ++ ", err = " ++ result.error)
    else (result.output, "")

/-- The constant `constexpr size_t KILOBYTE = 1024`. -/
def KILOBYTE : Nat := 1024

/-- Translation of `Environment::formatMemoryUsage(usage)`. -/
def formatMemoryUsage (usage : Nat) : String :=
  if usage > KILOBYTE * KILOBYTE then
    toString (usage / KILOBYTE / KILOBYTE) ++ "M"
  else
    toString (usage / KILOBYTE) ++ "K"

/-- The filesystem as seen by `Environment::loadFile`: `file? path` is the
    full byte content of the file at `path` when `fopen(path, "rb")`
    succeeds, and `none` when the file is missing or unreadable
    (`fopen` returns `nullptr`). -/
structure FsWorld where
  file? : String → Option String

/-- Translation of `Environment::loadFile(path)`: empty path or failed `fopen` yield the
    empty string; otherwise the file's full content is returned. -/
def loadFile (fs : FsWorld) (path : String) : String :=
  if path.isEmpty then ""
  else
    match fs.file? path with
    | none => ""
    | some content => content

end Environment

/-- Predicate: `needle` occurs verbatim inside `hay` (the message "mentions" it). -/
def mentions (needle hay : String) : Prop :=
  ∃ a b : List Char, hay.data = a ++ needle.data ++ b

/-! ### Concrete worlds used by counterexamples and witnesses -/

/-- A fault-free world: the child spawns, finishes in time, produces no
    output or error text, and exits with code 0. -/
def okWorld : OsWorld :=
  { spawn := .ok (), waitInTime := true, kill := .ok (),
    readOut := .ok "", readErr := .ok "", retcode := .ok 0 }

/-- A world in which the wait times out and the subsequent stdout drain
    throws an exception. -/
def timeoutFaultWorld : OsWorld :=
  { spawn := .ok (), waitInTime := false, kill := .ok (),
    readOut := .error "broken pipe", readErr := .ok "", retcode := .ok 0 }

/-- A fault-free world in which the wait times out; some stdout was produced
    before the kill, and the stderr pipe (never drained on this path) holds
    text. -/
def timeoutWorld : OsWorld :=
  { spawn := .ok (), waitInTime := false, kill := .ok (),
    readOut := .ok "partial out", readErr := .ok "ignored", retcode := .ok 0 }

/-- A fault-free world in which the child finishes in time with exit code 3,
    some stdout and no stderr text. -/
def nonzeroExitWorld : OsWorld :=
  { spawn := .ok (), waitInTime := true, kill := .ok (),
    readOut := .ok "some output", readErr := .ok "", retcode := .ok 3 }

/-- The filesystem with no readable files. -/
def fsNone : Environment.FsWorld := ⟨fun _ => none⟩

/-- The filesystem in which every path names a readable empty file. -/
def fsEmptyFile : Environment.FsWorld := ⟨fun _ => some ""⟩

/-! ### Theorems -/

/-- C6: `formatMemoryUsage b` is `toString (b/1024/1024) ++ "M"` when
    `b > 1024*1024` and `toString (b/1024) ++ "K"` otherwise, with
    integer-truncating division; in particular `format 0 = "0K"`, the exact
    boundary `1024*1024` formats with `K`, and `1024*1024 + 1` formats as
    `"1M"`. -/
theorem formatMemoryUsage_spec :
    (∀ b : Nat, Environment.formatMemoryUsage b =
      if b > 1024 * 1024 then toString (b / 1024 / 1024) ++ "M"
      else toString (b / 1024) ++ "K") ∧
    Environment.formatMemoryUsage 0 = "0K" ∧
    Environment.formatMemoryUsage (1024 * 1024) = "1024K" ∧
    Environment.formatMemoryUsage (1024 * 1024 + 1) = "1M" :=
  ⟨fun _ => rfl, rfl, rfl, rfl⟩

/-- C3: for the empty command string and every world and timeout, `popen`
    returns `("", "Command is empty")` — an error text containing `"empty"` —
    and no child process is spawned. -/
theorem popen_empty_command (w : OsWorld) (t : Int) :
    Environment.popen w "" t = ("", "Command is empty") ∧
    mentions "empty" (Environment.popen w "" t).2 ∧
    Environment.popenSpawnAttempts "" = 0 :=
  ⟨rfl, ⟨"Command is ".data, [], rfl⟩, rfl⟩

/-- C8: `loadFile` returns the empty string for the empty path and for every
    missing or unreadable file, and the full content of a readable file; a
    failed read is therefore indistinguishable from reading an empty file. -/
theorem loadFile_spec (fs fs2 : Environment.FsWorld) (path c : String) :
    Environment.loadFile fs "" = "" ∧
    (fs.file? path = none → Environment.loadFile fs path = "") ∧
    (¬path.isEmpty → fs.file? path = some c →
      Environment.loadFile fs path = c) ∧
    (fs.file? path = none → fs2.file? path = some "" →
      Environment.loadFile fs path = Environment.loadFile fs2 path) := by
  by_cases h : path.isEmpty
  · exact ⟨rfl, fun _ => by simp [Environment.loadFile, h],
      fun hne _ => absurd h hne,
      fun _ _ => by simp [Environment.loadFile, h]⟩
  · refine ⟨rfl, fun hn => ?_, fun _ hs => ?_, fun hn hs => ?_⟩
    · simp [Environment.loadFile, h, hn]
    · simp [Environment.loadFile, h, hs]
    · simp [Environment.loadFile, h, hn, hs]

/-- C8 witness: at the concrete filesystems `fsNone` and `fsEmptyFile` and
    the path `"/nonexistent/path"`, `loadFile` returns the empty string for
    the missing file and agrees with reading an empty file. -/
theorem loadFile_spec_witness :
    (fsNone.file? "/nonexistent/path" = none ∧
      Environment.loadFile fsNone "/nonexistent/path" = "") ∧
    (fsNone.file? "/nonexistent/path" = none ∧
      fsEmptyFile.file? "/nonexistent/path" = some "" ∧
      Environment.loadFile fsNone "/nonexistent/path" =
        Environment.loadFile fsEmptyFile "/nonexistent/path") :=
  ⟨⟨rfl, (loadFile_spec fsNone fsEmptyFile "/nonexistent/path" "").2.1 rfl⟩,
   ⟨rfl, rfl,
    (loadFile_spec fsNone fsEmptyFile "/nonexistent/path" "").2.2.2 rfl rfl⟩⟩

/-- A string is non-empty exactly when `isEmpty` is `false`. -/
theorem isEmpty_eq_false_of_ne (s : String) (h : s ≠ "") :
    s.isEmpty = false := by
  cases hs : s.isEmpty with
  | false => rfl
  | true => exact absurd ((String.isEmpty_iff s).mp hs) h

/-- C1 counterexample: in the fault-free world, `popen("ls", 0)` returns
    `("", "")` — both strings are empty, so it is not the case that exactly
    one of the two is non-empty. -/
theorem popen_both_empty_counterexample :
    Environment.popen okWorld "ls" 0 = ("", "") ∧
    ¬(((Environment.popen okWorld "ls" 0).1 ≠ "" ∧
        (Environment.popen okWorld "ls" 0).2 = "") ∨
      ((Environment.popen okWorld "ls" 0).1 = "" ∧
        (Environment.popen okWorld "ls" 0).2 ≠ "")) := by
  refine ⟨rfl, ?_⟩
  decide

/-- C1 amended: at most one of the two strings returned by `popen` is
    non-empty — whenever the error component is non-empty, the output
    component is empty (both may be empty, e.g. on a successful command with
    no output). -/
theorem popen_at_most_one_nonempty (w : OsWorld) (command : String) (t : Int)
    (h : (Environment.popen w command t).2 ≠ "") :
    (Environment.popen w command t).1 = "" := by
  have hshape : (Environment.popen w command t).1 = "" ∨
      (Environment.popen w command t).2 = "" := by
    simp only [Environment.popen]
    split
    · exact Or.inl rfl
    · split
      · exact Or.inl rfl
      · split
        · exact Or.inl rfl
        · exact Or.inr rfl
  exact hshape.resolve_right h

/-- C1 amended, witness: at the empty command the error component is
    non-empty and the output component is empty. -/
theorem popen_at_most_one_nonempty_witness :
    (Environment.popen okWorld "" 0).2 ≠ "" ∧
    (Environment.popen okWorld "" 0).1 = "" :=
  ⟨by decide, popen_at_most_one_nonempty okWorld "" 0 (by decide)⟩

/-- C2 counterexample: when the wait times out and the subsequent stdout
    drain throws (`timeoutFaultWorld`), the exception is caught and its
    message stored, but the outcome has `timedOut = true`, not `false` as the
    claim states. -/
theorem run_fault_after_timeout_counterexample :
    ProcessManager.runWithTimeoutAndCapture timeoutFaultWorld "sleep 5" 100 =
      { exitCode := -1, output := "", error := "broken pipe",
        timedOut := true } ∧
    ¬((ProcessManager.runWithTimeoutAndCapture timeoutFaultWorld
        "sleep 5" 100).timedOut = false) := by
  refine ⟨rfl, ?_⟩
  decide

/-- C2 amended: every exception along the executed path is caught and
    converted into an outcome whose error field holds the exception's message
    and whose exit code is -1; the `timedOut` flag is `false` unless the
    timeout had already fired before the exception (faults during the
    post-timeout kill or stdout drain leave `timedOut = true`).  The runner
    is a total function into `ProcessResult`, so no exception reaches the
    caller. -/
theorem run_fault_outcome (w : OsWorld) (command : String) (t : Int)
    (msg : String) (b : Bool)
    (h : ProcessManager.firstFault w t = some (msg, b)) :
    (ProcessManager.runWithTimeoutAndCapture w command t).error = msg ∧
    (ProcessManager.runWithTimeoutAndCapture w command t).exitCode = -1 ∧
    (ProcessManager.runWithTimeoutAndCapture w command t).timedOut = b := by
  rcases w with ⟨spawn, wait, kill, rout, rerr, rc⟩
  by_cases hpos : t > 0 <;>
    cases spawn <;> cases wait <;> cases kill <;> cases rout <;>
    cases rerr <;> cases rc <;>
    simp_all [ProcessManager.firstFault, ProcessManager.runWithTimeoutAndCapture]

/-- C2 amended, witness: in `timeoutFaultWorld` the first fault is the stdout
    drain after the timeout, and the outcome carries its message, exit code
    -1, and `timedOut = true`. -/
theorem run_fault_outcome_witness :
    ProcessManager.firstFault timeoutFaultWorld 100 =
      some ("broken pipe", true) ∧
    ((ProcessManager.runWithTimeoutAndCapture timeoutFaultWorld
        "sleep 5" 100).error = "broken pipe" ∧
     (ProcessManager.runWithTimeoutAndCapture timeoutFaultWorld
        "sleep 5" 100).exitCode = -1 ∧
     (ProcessManager.runWithTimeoutAndCapture timeoutFaultWorld
        "sleep 5" 100).timedOut = true) :=
  ⟨rfl, run_fault_outcome timeoutFaultWorld "sleep 5" 100 "broken pipe" true rfl⟩

/-- Draining the empty stream captures the empty string. -/
theorem captureBounded_empty : ProcessManager.captureBounded "" = "" := rfl

/-- C4: on a non-empty command with positive timeout, when the wait does not
    complete in time (and no OS call faults), the outcome has
    `timedOut = true` and exit code -1, `kill` is invoked exactly once, the
    stdout produced so far is captured bounded by the fixed 1 MiB buffer, and
    stderr is never drained: the captured error text is empty and the outcome
    does not depend on the stderr stream at all. -/
theorem run_timeout_path (w : OsWorld) (command : String) (t : Int)
    (outData : String) (e : OsCall String)
    (hc : command ≠ "") (ht : t > 0) (hspawn : w.spawn = .ok ())
    (hwait : w.waitInTime = false) (hkill : w.kill = .ok ())
    (hout : w.readOut = .ok outData) :
    ProcessManager.runWithTimeoutAndCapture w command t =
      { exitCode := -1, output := ProcessManager.captureBounded outData,
        error := "", timedOut := true } ∧
    (ProcessManager.runWithTimeoutAndCapture w command t).output.length ≤
      ProcessManager.BUFFER_SIZE ∧
    ProcessManager.killCount w t = 1 ∧
    ProcessManager.runWithTimeoutAndCapture { w with readErr := e } command t =
      ProcessManager.runWithTimeoutAndCapture w command t := by
  rcases w with ⟨spawn, wait, kill, rout, rerr, rc⟩
  simp only at hspawn hwait hkill hout
  subst hspawn; subst hwait; subst hkill; subst hout
  refine ⟨?_, ?_, ?_, ?_⟩
  · simp [ProcessManager.runWithTimeoutAndCapture, ht]
  · simp [ProcessManager.runWithTimeoutAndCapture, ht,
      ProcessManager.captureBounded, ProcessManager.BUFFER_SIZE,
      String.length_mk, List.length_take]
  · simp [ProcessManager.killCount, ht]
  · simp [ProcessManager.runWithTimeoutAndCapture, ht]

/-- C4 witness: in `timeoutWorld` (wait times out, `"partial out"` on stdout,
    text pending on stderr) the timeout outcome is as described. -/
theorem run_timeout_path_witness :
    ("sleep 5" ≠ "" ∧ (100 : Int) > 0) ∧
    (ProcessManager.runWithTimeoutAndCapture timeoutWorld "sleep 5" 100 =
      { exitCode := -1,
        output := ProcessManager.captureBounded "partial out",
        error := "", timedOut := true } ∧
    (ProcessManager.runWithTimeoutAndCapture timeoutWorld
        "sleep 5" 100).output.length ≤ ProcessManager.BUFFER_SIZE ∧
    ProcessManager.killCount timeoutWorld 100 = 1 ∧
    ProcessManager.runWithTimeoutAndCapture
        { timeoutWorld with readErr := .error "fault" } "sleep 5" 100 =
      ProcessManager.runWithTimeoutAndCapture timeoutWorld "sleep 5" 100) :=
  ⟨⟨by decide, by decide⟩,
   run_timeout_path timeoutWorld "sleep 5" 100 "partial out" (.error "fault")
     (by decide) (by decide) rfl rfl rfl rfl⟩

/-- C5: on a non-empty command with timeout 0 and a successful spawn, the
    runner returns immediately with exit code 0, empty output, empty error
    and `timedOut = false`, having spawned the process exactly once. -/
theorem run_zero_timeout (w : OsWorld) (command : String)
    (hc : command ≠ "") (hspawn : w.spawn = .ok ()) :
    ProcessManager.runWithTimeoutAndCapture w command 0 =
      { exitCode := 0, output := "", error := "", timedOut := false } ∧
    Environment.popenSpawnAttempts command = 1 := by
  constructor
  · rcases w with ⟨spawn, wait, kill, rout, rerr, rc⟩
    simp only at hspawn
    subst hspawn
    simp [ProcessManager.runWithTimeoutAndCapture]
  · simp [Environment.popenSpawnAttempts, isEmpty_eq_false_of_ne command hc]

/-- C5 witness: the fault-free world with command `"ls"`. -/
theorem run_zero_timeout_witness :
    ("ls" ≠ "") ∧
    (ProcessManager.runWithTimeoutAndCapture okWorld "ls" 0 =
      { exitCode := 0, output := "", error := "", timedOut := false } ∧
     Environment.popenSpawnAttempts "ls" = 1) :=
  ⟨by decide, run_zero_timeout okWorld "ls" (by decide) rfl⟩

/-- C10: a negative timeout behaves exactly like timeout 0 (the runner
    guards only on `timeoutInMilliseconds > 0`): the process is spawned,
    nothing is waited for or captured, and with a successful spawn the
    outcome is exit code 0, empty output, empty error, `timedOut = false`. -/
theorem run_negative_timeout (w : OsWorld) (command : String) (t : Int)
    (hc : command ≠ "") (ht : t < 0) :
    ProcessManager.runWithTimeoutAndCapture w command t =
      ProcessManager.runWithTimeoutAndCapture w command 0 ∧
    (w.spawn = .ok () →
      ProcessManager.runWithTimeoutAndCapture w command t =
        { exitCode := 0, output := "", error := "", timedOut := false }) ∧
    Environment.popenSpawnAttempts command = 1 := by
  have h1 : ¬t > 0 := by omega
  rcases w with ⟨spawn, wait, kill, rout, rerr, rc⟩
  refine ⟨?_, ?_, ?_⟩
  · cases spawn <;>
      simp [ProcessManager.runWithTimeoutAndCapture, h1]
  · intro hs
    simp only at hs
    subst hs
    simp [ProcessManager.runWithTimeoutAndCapture, h1]
  · simp [Environment.popenSpawnAttempts, isEmpty_eq_false_of_ne command hc]

/-- C10 witness: timeout -5 on the fault-free world. -/
theorem run_negative_timeout_witness :
    ("ls" ≠ "" ∧ (-5 : Int) < 0) ∧
    (ProcessManager.runWithTimeoutAndCapture okWorld "ls" (-5) =
      ProcessManager.runWithTimeoutAndCapture okWorld "ls" 0 ∧
    (okWorld.spawn = .ok () →
      ProcessManager.runWithTimeoutAndCapture okWorld "ls" (-5) =
        { exitCode := 0, output := "", error := "", timedOut := false }) ∧
    Environment.popenSpawnAttempts "ls" = 1) :=
  ⟨⟨by decide, by decide⟩,
   run_negative_timeout okWorld "ls" (-5) (by decide) (by decide)⟩

/-- The empty string is empty. -/
theorem empty_isEmpty : ("" : String).isEmpty = true := rfl

/-- C7: for a non-empty command and positive timeout, `popen` maps the
    runner's outcome as follows: a timed-out outcome yields `("", m)` with
    `m` mentioning the command and the timeout value; a non-timed-out outcome
    with non-empty error text yields `("", m)` with `m` mentioning the
    command, the exit code and the error text; every other outcome yields
    `(capturedOutput, "")`. -/
theorem popen_maps_outcome (w : OsWorld) (command : String) (t : Int)
    (r : ProcessManager.ProcessResult)
    (hc : command ≠ "") (ht : t > 0)
    (hr : ProcessManager.runWithTimeoutAndCapture w command t = r) :
    (r.timedOut = true →
      Environment.popen w command t =
        ("", "popen timed-out with command = [" ++ command ++ "] in " ++
          toString t ++ "ms") ∧
      mentions command (Environment.popen w command t).2 ∧
      mentions (toString t) (Environment.popen w command t).2) ∧
    (r.timedOut = false → r.error ≠ "" →
      Environment.popen w command t =
        ("", "popen failed with command = [" ++ command ++ "]: exitCode = " ++
          toString r.exitCode ++ ", err = " ++ r.error) ∧
      mentions command (Environment.popen w command t).2 ∧
      mentions (toString r.exitCode) (Environment.popen w command t).2 ∧
      mentions r.error (Environment.popen w command t).2) ∧
    (r.timedOut = false → r.error = "" →
      Environment.popen w command t = (r.output, "")) := by
  have hcc : command.isEmpty = false := isEmpty_eq_false_of_ne command hc
  refine ⟨?_, ?_, ?_⟩
  · intro hT
    have hp : Environment.popen w command t =
        ("", "popen timed-out with command = [" ++ command ++ "] in " ++
          toString t ++ "ms") := by
      simp [Environment.popen, hcc, hr, hT]
    refine ⟨hp, ?_, ?_⟩
    · rw [hp]
      exact ⟨"popen timed-out with command = [".data,
        ("] in " ++ toString t ++ "ms").data,
        by simp [String.data_append]⟩
    · rw [hp]
      exact ⟨("popen timed-out with command = [" ++ command ++ "] in ").data,
        "ms".data, by simp [String.data_append]⟩
  · intro hT he
    have hne : r.error.isEmpty = false := isEmpty_eq_false_of_ne r.error he
    have hp : Environment.popen w command t =
        ("", "popen failed with command = [" ++ command ++ "]: exitCode = " ++
          toString r.exitCode ++ ", err = " ++ r.error) := by
      simp [Environment.popen, hcc, hr, hT, hne]
    refine ⟨hp, ?_, ?_, ?_⟩
    · rw [hp]
      exact ⟨"popen failed with command = [".data,
        ("]: exitCode = " ++ toString r.exitCode ++ ", err = " ++ r.error).data,
        by simp [String.data_append]⟩
    · rw [hp]
      exact ⟨("popen failed with command = [" ++ command ++
          "]: exitCode = ").data,
        (", err = " ++ r.error).data, by simp [String.data_append]⟩
    · rw [hp]
      exact ⟨("popen failed with command = [" ++ command ++ "]: exitCode = " ++
          toString r.exitCode ++ ", err = ").data, [],
        by simp [String.data_append]⟩
  · intro hT he
    simp [Environment.popen, hcc, hr, hT, he, empty_isEmpty]

/-- C7 witness: in `nonzeroExitWorld` (wait completes, exit code 3, no stderr
    text) the third case applies: `popen` returns the captured output and an
    empty error. -/
theorem popen_maps_outcome_witness :
    ("cat x" ≠ "" ∧ (50 : Int) > 0) ∧
    (((ProcessManager.runWithTimeoutAndCapture nonzeroExitWorld "cat x"
          50).timedOut = true →
      Environment.popen nonzeroExitWorld "cat x" 50 =
        ("", "popen timed-out with command = [" ++ "cat x" ++ "] in " ++
          toString (50 : Int) ++ "ms") ∧
      mentions "cat x" (Environment.popen nonzeroExitWorld "cat x" 50).2 ∧
      mentions (toString (50 : Int))
        (Environment.popen nonzeroExitWorld "cat x" 50).2) ∧
    ((ProcessManager.runWithTimeoutAndCapture nonzeroExitWorld "cat x"
          50).timedOut = false →
      (ProcessManager.runWithTimeoutAndCapture nonzeroExitWorld "cat x"
          50).error ≠ "" →
      Environment.popen nonzeroExitWorld "cat x" 50 =
        ("", "popen failed with command = [" ++ "cat x" ++ "]: exitCode = " ++
          toString (ProcessManager.runWithTimeoutAndCapture nonzeroExitWorld
            "cat x" 50).exitCode ++ ", err = " ++
          (ProcessManager.runWithTimeoutAndCapture nonzeroExitWorld "cat x"
            50).error) ∧
      mentions "cat x" (Environment.popen nonzeroExitWorld "cat x" 50).2 ∧
      mentions (toString (ProcessManager.runWithTimeoutAndCapture
          nonzeroExitWorld "cat x" 50).exitCode)
        (Environment.popen nonzeroExitWorld "cat x" 50).2 ∧
      mentions (ProcessManager.runWithTimeoutAndCapture nonzeroExitWorld
          "cat x" 50).error
        (Environment.popen nonzeroExitWorld "cat x" 50).2) ∧
    ((ProcessManager.runWithTimeoutAndCapture nonzeroExitWorld "cat x"
          50).timedOut = false →
      (ProcessManager.runWithTimeoutAndCapture nonzeroExitWorld "cat x"
          50).error = "" →
      Environment.popen nonzeroExitWorld "cat x" 50 =
        ((ProcessManager.runWithTimeoutAndCapture nonzeroExitWorld "cat x"
          50).output, ""))) :=
  ⟨⟨by decide, by decide⟩,
   popen_maps_outcome nonzeroExitWorld "cat x" 50
     (ProcessManager.runWithTimeoutAndCapture nonzeroExitWorld "cat x" 50)
     (by decide) (by decide) rfl⟩

/-- C9: when the child exits in time with a non-zero exit code but writes
    nothing to stderr (and no OS call faults), `popen` returns
    `(capturedOutput, "")` — the shape of a successful result — so the
    non-zero exit code is not observable through the two-valued wrapper. -/
theorem popen_nonzero_exit_silent (w : OsWorld) (command : String) (t : Int)
    (outData : String) (rc : Int)
    (hc : command ≠ "") (ht : t > 0) (hspawn : w.spawn = .ok ())
    (hwait : w.waitInTime = true) (hout : w.readOut = .ok outData)
    (herr : w.readErr = .ok "") (hrc : w.retcode = .ok rc) (hrc0 : rc ≠ 0) :
    (ProcessManager.runWithTimeoutAndCapture w command t).exitCode = rc ∧
    Environment.popen w command t =
      (ProcessManager.captureBounded outData, "") := by
  have hcc : command.isEmpty = false := isEmpty_eq_false_of_ne command hc
  rcases w with ⟨spawn, wait, kill, rout, rerr, rcall⟩
  simp only at hspawn hwait hout herr hrc
  subst hspawn; subst hwait; subst hout; subst herr; subst hrc
  constructor
  · simp [ProcessManager.runWithTimeoutAndCapture, ht]
  · simp [Environment.popen, ProcessManager.runWithTimeoutAndCapture, ht, hcc,
      captureBounded_empty, empty_isEmpty]

/-- C9 witness: in `nonzeroExitWorld` (exit code 3, stdout `"some output"`,
    empty stderr) `popen` looks exactly like a success. -/
theorem popen_nonzero_exit_silent_witness :
    ("cat x" ≠ "" ∧ (50 : Int) > 0 ∧ (3 : Int) ≠ 0) ∧
    ((ProcessManager.runWithTimeoutAndCapture nonzeroExitWorld "cat x"
        50).exitCode = 3 ∧
     Environment.popen nonzeroExitWorld "cat x" 50 =
       (ProcessManager.captureBounded "some output", "")) :=
  ⟨⟨by decide, by decide, by decide⟩,
   popen_nonzero_exit_silent nonzeroExitWorld "cat x" 50 "some output" 3
     (by decide) (by decide) rfl rfl rfl rfl rfl (by decide)⟩
